import Mathlib

/-!
Shallow embedding of trainvae.py (world-models VAE trainer) and proofs about
its command-line parsing, startup directory creation, checkpoint reloading,
per-epoch training loop, loss function and determinism.
-/

set_option linter.unusedVariables false

/-! ## Command-line interface (source lines 18-28)

The script builds an argparse parser with four options:
  --batch-size  : int, default 32
  --epochs      : int, default 1000
  --logdir      : str, no default (argparse gives None), not marked required
  --noreload    : store_true flag, default False
Unknown tokens and missing or non-integer option values are parse errors.
-/

structure Args where
  batch_size : Int
  epochs : Int
  logdir : Option String
  noreload : Bool
  deriving DecidableEq, Repr

def defaultArgs : Args := { batch_size := 32, epochs := 1000, logdir := none, noreload := false }

/-- Decimal digit accumulation for pyInt; fails on any non-digit character. -/
def digitsToNat : List Char → Nat → Option Nat
  | [], acc => some acc
  | c :: rest, acc =>
      if c.isDigit then digitsToNat rest (acc * 10 + (c.toNat - 48)) else none

/-- The int conversion argparse applies to option values (Python int() on a
decimal string, with an optional leading minus sign); None on failure. -/
def pyInt (s : String) : Option Int :=
  match s.data with
  | [] => none
  | '-' :: c :: rest => (digitsToNat (c :: rest) 0).map (fun n => -(n : Int))
  | cs => (digitsToNat cs 0).map (fun n => (n : Int))

def parseFrom : List String → Args → Option Args
  | [], a => some a
  | "--batch-size" :: v :: rest, a =>
      match pyInt v with
      | some n => parseFrom rest { a with batch_size := n }
      | none => none
  | "--epochs" :: v :: rest, a =>
      match pyInt v with
      | some n => parseFrom rest { a with epochs := n }
      | none => none
  | "--logdir" :: v :: rest, a => parseFrom rest { a with logdir := some v }
  | "--noreload" :: rest, a => parseFrom rest { a with noreload := true }
  | _, _ => none

def parse (argv : List String) : Option Args := parseFrom argv defaultArgs

/-! ## Per-epoch loop events (source lines 146-167)

The epoch loop is
    cur_best = None
    for epoch in range(1, args.epochs + 1):
        train(epoch)
        test_loss = test()
        is_best = not cur_best or test_loss < cur_best
        save_checkpoint({...}, is_best, filename, best_filename)
        ... sample generation ...
Nothing in the body assigns to cur_best.  We abstract the numeric work of
train and test into an oracle giving the test loss of each epoch, and record
the control flow as a trace of events.
-/

inductive Event where
  | reload : ℚ → Event
  | train : Nat → Event
  | test : Nat → Event
  | save : Nat → ℚ → Bool → Event
  | sample : Nat → Event
  deriving DecidableEq, Repr

/-- Python truthiness test in the expression
`is_best = not cur_best or test_loss < cur_best`:
`not cur_best` is true when cur_best is None and also when it is 0.0. -/
def is_best (cur_best : Option ℚ) (test_loss : ℚ) : Bool :=
  match cur_best with
  | none => true
  | some b => if b = 0 then true else decide (test_loss < b)

/-- One iteration of the epoch loop body (source lines 148-167): train, test,
checkpoint with the is_best flag, then sample.  The body never assigns to
cur_best, so it is returned unchanged. -/
def epochStep (cur_best : Option ℚ) (epoch : Nat) (test_loss : ℚ) :
    Option ℚ × List Event :=
  (cur_best,
   [Event.train epoch, Event.test epoch,
    Event.save epoch test_loss (is_best cur_best test_loss),
    Event.sample epoch])

def loopAux (losses : Nat → ℚ) (cur_best : Option ℚ) : List Nat → List Event
  | [] => []
  | e :: rest =>
      let s := epochStep cur_best e (losses e)
      s.2 ++ loopAux losses s.1 rest

/-- The whole epoch loop: `for epoch in range(1, epochs + 1)` starting from
`cur_best = None`. -/
def loopTrace (losses : Nat → ℚ) (epochs : Nat) : List Event :=
  loopAux losses none ((List.range epochs).map (· + 1))

/-- Epoch count as the script receives it (argparse int); Python
`range(1, epochs + 1)` is empty for any epochs below 1. -/
def loopTraceI (losses : Nat → ℚ) (epochs : Int) : List Event :=
  loopTrace losses epochs.toNat

/-- Startup reload (source lines 137-144) followed by the loop.  The reload
branch runs when noreload was not given and best.tar exists; it prints the
saved precision and loads model and optimizer state.  It does not touch
cur_best, which line 146 sets to None just before the loop. -/
def programTrace (noreload : Bool) (bestPrec : Option ℚ) (losses : Nat → ℚ)
    (epochs : Int) : List Event :=
  (if !noreload then
    match bestPrec with
    | some p => [Event.reload p]
    | none => []
   else []) ++ loopTraceI losses epochs

/-- The checkpoint writes in a trace, as (epoch, precision, is_best) triples:
save_checkpoint writes checkpoint.tar on every call and copies it over
best.tar exactly when is_best is true. -/
def saves (evs : List Event) : List (Nat × ℚ × Bool) :=
  evs.filterMap (fun e => match e with
    | Event.save n p b => some (n, p, b)
    | _ => none)

/-- Content of the precision field of best.tar after replaying a trace over an
initial best.tar content (none when the file does not exist). -/
def bestPrecision (init : Option ℚ) (evs : List Event) : Option ℚ :=
  (saves evs).foldl (fun acc s => if s.2.2 then some s.2.1 else acc) init

/-- The first checkpoint write of a trace, if any. -/
def firstSave (evs : List Event) : Option (Nat × ℚ × Bool) :=
  (saves evs).head?

/-- Phase tag of an event: the epoch it belongs to and its position in the
body (train 0, test 1, save 2, sample 3); the startup reload is tagged
epoch 0. -/
def phaseOf : Event → Nat × Nat
  | Event.reload _ => (0, 0)
  | Event.train e => (e, 0)
  | Event.test e => (e, 1)
  | Event.save e _ _ => (e, 2)
  | Event.sample e => (e, 3)

/-! ## Loss function (source lines 79-89)

    BCE = F.mse_loss(recon_x, x, size_average=False)
    KLD = -0.5 * torch.sum(1 + 2 * logsigma - mu.pow(2) - (2 * logsigma).exp())
    return BCE + KLD

Tensors are embedded as flat lists of scalars (batch and feature dimensions
concatenated); scalars are rationals, with the elementwise exponential kept
abstract as a function argument. -/

/-- F.mse_loss with size_average=False: the sum of squared differences over
every element of the two tensors. -/
def mse_loss_sum (recon_x x : List ℚ) : ℚ :=
  (List.zipWith (fun r v => (r - v) ^ 2) recon_x x).sum

/-- The loss returned by loss_function, translated elementwise from the
source; pexp is the exponential applied by Tensor.exp. -/
def loss_function (pexp : ℚ → ℚ) (recon_x x mu logsigma : List ℚ) : ℚ :=
  let BCE := mse_loss_sum recon_x x
  let KLD := -(1/2) *
    (List.zipWith (fun m ls => 1 + 2 * ls - m ^ 2 - pexp (2 * ls)) mu logsigma).sum
  BCE + KLD

/-- Modelled from the claim wording for comparison: the analytic KL
divergence -0.5 * sum(1 + 2 log sigma - mu^2 - sigma^2) with
sigma = exp(log sigma). -/
def spec_kl (pexp : ℚ → ℚ) (mu logsigma : List ℚ) : ℚ :=
  -(1/2) *
    (List.zipWith (fun m ls => 1 + 2 * ls - m ^ 2 - (pexp ls) ^ 2) mu logsigma).sum

/-! ## Startup directory creation (source lines 130-134)

    vae_dir = join(args.logdir, 'vae')
    if not exists(vae_dir):
        mkdir(vae_dir)
        mkdir(join(vae_dir, 'samples'))

The filesystem is a list of existing directory paths. -/

def pathJoin (a b : String) : String := a ++ "/" ++ b

def pexists (fs : List String) (p : String) : Bool := fs.contains p

/-- Everything before the last slash of a path; a path with no slash has
parent "" standing for the working directory, which always exists. -/
def parentDir (p : String) : String :=
  String.mk (((p.data.reverse.dropWhile (· != '/')).drop 1).reverse)

/-- os.mkdir: creates a single directory.  It raises FileNotFoundError when
the parent directory does not exist and FileExistsError when the path itself
already exists; either exception is uncaught in the script and kills the
process, modelled as none. -/
def mkdirFs (fs : List String) (p : String) : Option (List String) :=
  if pexists fs p then none
  else if parentDir p == "" || pexists fs (parentDir p) then some (p :: fs)
  else none

def vaeDir (logdir : String) : String := pathJoin logdir "vae"

def samplesDir (logdir : String) : String := pathJoin (vaeDir logdir) "samples"

/-- The directory-creation step run before the training loop; none when the
process dies on an uncaught mkdir exception (for instance when logdir itself
does not exist). -/
def startupDirs (logdir : String) (fs : List String) : Option (List String) :=
  if pexists fs (vaeDir logdir) then some fs
  else
    match mkdirFs fs (vaeDir logdir) with
    | none => none
    | some fs1 => mkdirFs fs1 (samplesDir logdir)

/-! ## Checkpoint reload (source lines 136-144)

    reload_file = join(vae_dir, 'best.tar')
    if not args.noreload and exists(reload_file):
        state = torch.load(reload_file)
        model.load_state_dict(state['state_dict'])
        optimizer.load_state_dict(state['optimizer'])

Model parameters and optimizer state are abstract types; the best.tar file
content, when the file exists, is a Checkpoint record with the fields the
script saves (epoch, state_dict, precision, optimizer). -/

structure Checkpoint (P O : Type) where
  epoch : Nat
  state_dict : P
  precision : ℚ
  optimizer : O

/-- The reload step: given the parsed noreload flag, the content of best.tar
when it exists (none when it does not), and the freshly initialized model and
optimizer state, return the state the training loop starts from. -/
def reloadStep {P O : Type} (noreload : Bool) (bestFile : Option (Checkpoint P O))
    (m : P) (o : O) : P × O :=
  if !noreload then
    match bestFile with
    | some st => (st.state_dict, st.optimizer)
    | none => (m, o)
  else (m, o)

/-! ## Stateful phases (source lines 92-128)

The tensor library is abstracted by operation parameters: each forward or
optimizer call consumes the global random-number-generator state (a Nat) and
returns the new one.  The model carries its parameters and the
training-mode flag toggled by model.train() and model.eval(). -/

structure ModelState (P : Type) where
  params : P
  training : Bool

/-- One training epoch (source lines 92-112): model.train(), then per batch a
forward pass, backward pass and optimizer step, abstracted as stepFn, which
maps (params, optimizer state, rng) and a batch to their updated values and
the batch loss. -/
def trainEpoch {P O D : Type} (stepFn : P → O → Nat → D → P × O × Nat × ℚ)
    (m : ModelState P) (opt : O) (rng : Nat) (buffer : List D) :
    ModelState P × O × Nat :=
  let m0 : ModelState P := { m with training := true }
  buffer.foldl
    (fun st d =>
      let r := stepFn st.1.params st.2.1 st.2.2 d
      ({ st.1 with params := r.1 }, r.2.1, r.2.2.1))
    (m0, opt, rng)

/-- One test epoch (source lines 115-128): model.eval(), then with no_grad a
forward pass per batch accumulating the loss, abstracted as lossOf which maps
(params, rng) and a batch to the batch loss and new rng; finally the
accumulated loss is divided by the test dataset size.  Returns the model
state, the optimizer state, the rng and the average loss. -/
def testEpoch {P O D : Type} (lossOf : P → Nat → D → ℚ × Nat)
    (m : ModelState P) (opt : O) (rng : Nat) (buffer : List D) (nTest : ℚ) :
    ModelState P × O × Nat × ℚ :=
  let m0 : ModelState P := { m with training := false }
  let r := buffer.foldl
    (fun (acc : Nat × ℚ) d =>
      let l := lossOf m0.params acc.1 d
      (l.2, acc.2 + l.1))
    (rng, 0)
  (m0, opt, r.1, r.2 / nTest)

/-- The total loss a test epoch accumulates over its batches, as a standalone
recursion (for stating the average-loss property of testEpoch). -/
def lossSum {P D : Type} (lossOf : P → Nat → D → ℚ × Nat) (p : P) :
    Nat → List D → ℚ
  | _, [] => 0
  | rng, d :: rest =>
      let l := lossOf p rng d
      l.1 + lossSum lossOf p l.2 rest

/-- The rng state after a test epoch has consumed its batches. -/
def rngAfter {P D : Type} (lossOf : P → Nat → D → ℚ × Nat) (p : P) :
    Nat → List D → Nat
  | rng, [] => rng
  | rng, d :: rest => rngAfter lossOf p (lossOf p rng d).2 rest

/-! ## The whole run (source, top to bottom)

torch.manual_seed(123) at line 32 runs before the datasets, the model and any
noise draw; every later random choice (weight init, loader shuffling, the
reparameterization eps, the decoded sample latents) consumes the global rng
state it established.  The external tensor library is a record of operations,
each threading that rng state. -/

/-- torch.manual_seed: replaces the global rng state with the given seed,
discarding whatever state (ambient entropy) was there before. -/
def manual_seed (seed : Nat) (rng : Nat) : Nat := seed

/-- The external operations a run uses.  P: model parameters, O: optimizer
state, D: a batch of images, I: a saved sample image.  loadTrain and loadTest
model load_buffer plus the shuffling DataLoader: from the epoch number and
the rng they produce the sequence of batches and the new rng; identical
dataset contents mean identical such functions.  decode models the sampling
block: draw randn(64, 32) latents from the rng and run the decoder. -/
structure RunOps (P O D I : Type) where
  initModel : Nat → P × Nat
  initOptim : P → O
  loadTrain : Nat → Nat → List D × Nat
  loadTest : Nat → Nat → List D × Nat
  stepFn : P → O → Nat → D → P × O × Nat × ℚ
  lossOf : P → Nat → D → ℚ × Nat
  decode : P → Nat → I × Nat
  nTest : ℚ

/-- The whole script as a function of its inputs: the operation record (the
library and the dataset contents), the content of best.tar if present, the
parsed arguments, and the ambient rng state the process happened to start
with.  Returns the final model, optimizer and rng state together with the
per-epoch test losses and decoded sample images. -/
def fullRun {P O D I : Type} (ops : RunOps P O D I)
    (bestFile : Option (Checkpoint P O)) (args : Args) (entropy : Nat) :
    (ModelState P × O × Nat) × List (ℚ × I) :=
  let rng0 := manual_seed 123 entropy
  let im := ops.initModel rng0
  let m0 : ModelState P := { params := im.1, training := true }
  let opt0 := ops.initOptim m0.params
  let ro := reloadStep args.noreload bestFile m0.params opt0
  let start : (ModelState P × O × Nat) × List (ℚ × I) :=
    (({ m0 with params := ro.1 }, ro.2, im.2), [])
  ((List.range args.epochs.toNat).map (· + 1)).foldl
    (fun st epoch =>
      match st with
      | ((m, opt, rng), outs) =>
        let lt := ops.loadTrain epoch rng
        let tr := trainEpoch ops.stepFn m opt lt.2 lt.1
        let lv := ops.loadTest epoch tr.2.2
        let te := testEpoch ops.lossOf tr.1 tr.2.1 lv.2 lv.1 ops.nTest
        let dec := ops.decode te.1.params te.2.2.1
        ((te.1, te.2.1, dec.2), outs ++ [(te.2.2.2, dec.1)]))
    start

/-! ## Helper lemmas -/

theorem loopAux_eq_flatMap (losses : Nat → ℚ) (cb : Option ℚ) (l : List Nat) :
    loopAux losses cb l = l.flatMap (fun e =>
      [Event.train e, Event.test e,
       Event.save e (losses e) (is_best cb (losses e)), Event.sample e]) := by
  induction l with
  | nil => rfl
  | cons e rest ih => simp [loopAux, epochStep, ih, List.flatMap_cons]

theorem loopTrace_eq_flatMap (losses : Nat → ℚ) (n : Nat) :
    loopTrace losses n = (List.range n).flatMap (fun i =>
      [Event.train (i + 1), Event.test (i + 1),
       Event.save (i + 1) (losses (i + 1)) true, Event.sample (i + 1)]) := by
  unfold loopTrace
  rw [loopAux_eq_flatMap, List.flatMap_map]
  rfl

theorem loopTrace_length (losses : Nat → ℚ) (n : Nat) :
    (loopTrace losses n).length = 4 * n := by
  rw [loopTrace_eq_flatMap]
  induction n with
  | zero => rfl
  | succ k ih =>
      rw [List.range_succ, List.flatMap_append, List.length_append, ih]
      simp [List.flatMap_cons]
      omega

theorem saves_append (l1 l2 : List Event) :
    saves (l1 ++ l2) = saves l1 ++ saves l2 := by
  simp [saves, List.filterMap_append]

theorem testEpoch_fold_sum {P D : Type} (lossOf : P → Nat → D → ℚ × Nat) (p : P)
    (buffer : List D) : ∀ (rng : Nat) (acc : ℚ),
    (buffer.foldl
      (fun (a : Nat × ℚ) d =>
        let l := lossOf p a.1 d
        (l.2, a.2 + l.1))
      (rng, acc)).2 = acc + lossSum lossOf p rng buffer := by
  induction buffer with
  | nil => intro rng acc; simp [lossSum]
  | cons d rest ih =>
      intro rng acc
      simp only [List.foldl_cons, lossSum, ih]
      ring

theorem zipWith_fn_congr {f g : ℚ → ℚ → ℚ} (h : ∀ a b, f a b = g a b) :
    ∀ l1 l2 : List ℚ, List.zipWith f l1 l2 = List.zipWith g l1 l2
  | [], _ => by simp
  | _ :: _, [] => by simp
  | a :: t1, b :: t2 => by
      simp only [List.zipWith_cons_cons, h a b, zipWith_fn_congr h t1 t2]

theorem dropWhile_to_slash (l1 l2 : List Char) (h : ∀ c ∈ l1, c ≠ '/') :
    (l1 ++ '/' :: l2).dropWhile (· != '/') = '/' :: l2 := by
  induction l1 with
  | nil => simp
  | cons c t ih =>
      have hc : (c != '/') = true := by simpa using h c (List.mem_cons_self c t)
      simp only [List.cons_append, List.dropWhile_cons, hc, if_true]
      exact ih (fun x hx => h x (List.mem_cons_of_mem c hx))

theorem parentDir_pathJoin (a b : String) (hb : ∀ c ∈ b.data, c ≠ '/') :
    parentDir (pathJoin a b) = a := by
  have hrev : (pathJoin a b).data.reverse = b.data.reverse ++ '/' :: a.data.reverse := by
    simp [pathJoin, String.data_append, List.reverse_append]
  have hdw : (pathJoin a b).data.reverse.dropWhile (· != '/') = '/' :: a.data.reverse := by
    rw [hrev]
    exact dropWhile_to_slash _ _ (fun c hc => hb c (List.mem_reverse.mp hc))
  unfold parentDir
  rw [hdw]
  show String.mk a.data.reverse.reverse = a
  rw [List.reverse_reverse]

theorem samplesDir_ne_vaeDir (logdir : String) :
    samplesDir logdir ≠ vaeDir logdir := by
  intro h
  have hlen := congrArg (fun s => s.data.length) h
  simp [samplesDir, vaeDir, pathJoin, String.data_append,
    List.length_append] at hlen

theorem pexists_cons (x : String) (fs : List String) (p : String) :
    pexists (x :: fs) p = (p == x || pexists fs p) := by
  simp only [pexists, List.contains_cons]

/-! ## Claim theorems -/

/-- Claim C1 (refuted, code bug): the recorded best loss is NOT the minimum
test loss over completed epochs.  Since cur_best is never reassigned inside
the loop, is_best is true every epoch and best.tar is overwritten every
epoch.  With two epochs of test losses 1 then 2, both checkpoint writes carry
is_best = true and the best.tar precision ends at 2, strictly above the
minimum 1, so the recorded best loss is not monotonically non-increasing. -/
theorem best_tar_overwritten_every_epoch :
    saves (loopTrace (fun e => if e = 1 then (1 : ℚ) else 2) 2) =
      [(1, 1, true), (2, 2, true)]
    ∧ bestPrecision none (loopTrace (fun e => if e = 1 then (1 : ℚ) else 2) 2) =
        some 2
    ∧ (1 : ℚ) < 2 :=
  ⟨rfl, rfl, by norm_num⟩

/-- Claim C2: for every reconstruction, input, mean and log-std tensor,
loss_function returns the summed squared-error reconstruction loss plus the
analytic KL divergence -0.5 * sum(1 + 2 log sigma - mu^2 - sigma^2), with
sigma = exp(log sigma), both terms summed over all elements, given that the
elementwise exponential is multiplicative on sums. -/
theorem loss_function_sums_mse_and_kl (pexp : ℚ → ℚ)
    (hexp : ∀ a b : ℚ, pexp (a + b) = pexp a * pexp b)
    (recon_x x mu logsigma : List ℚ) :
    loss_function pexp recon_x x mu logsigma =
      mse_loss_sum recon_x x + spec_kl pexp mu logsigma := by
  have h : List.zipWith (fun m ls => 1 + 2 * ls - m ^ 2 - pexp (2 * ls)) mu logsigma
      = List.zipWith (fun m ls => 1 + 2 * ls - m ^ 2 - (pexp ls) ^ 2) mu logsigma := by
    apply zipWith_fn_congr
    intro a b
    have hb : pexp (2 * b) = pexp b * pexp b := by rw [two_mul, hexp]
    rw [hb]; ring
  unfold loss_function spec_kl
  simp only [h]

/-- Witness for C2 at concrete one-element tensors, with the constant-one
exponential discharging the multiplicativity hypothesis. -/
theorem loss_function_sums_mse_and_kl_witness :
    loss_function (fun _ => 1) [2] [0] [3] [1] =
      mse_loss_sum [2] [0] + spec_kl (fun _ => 1) [3] [1] :=
  loss_function_sums_mse_and_kl (fun _ => 1) (fun a b => by norm_num) [2] [0] [3] [1]

/-- Claim C3: the loop runs exactly the configured number of epochs and
terminates; each epoch is the block train, test, checkpoint write, sample, in
that order, with no phase skipped or reordered: the phase tags of the trace
are exactly the concatenation of (e,0),(e,1),(e,2),(e,3) for e = 1..epochs,
and the trace has exactly 4 * epochs events. -/
theorem epoch_loop_phase_order (losses : Nat → ℚ) (epochs : Nat) :
    (loopTrace losses epochs).map phaseOf =
      (List.range epochs).flatMap (fun i => [(i+1, 0), (i+1, 1), (i+1, 2), (i+1, 3)])
    ∧ (loopTrace losses epochs).length = 4 * epochs := by
  refine ⟨?_, loopTrace_length losses epochs⟩
  rw [loopTrace_eq_flatMap, List.map_flatMap]
  rfl

/-- Claim C4: when best.tar exists and noreload was not given, the model and
optimizer state are loaded from it; when noreload was given, or the file does
not exist, the reload is skipped and the freshly initialized state is used,
with no error (reloadStep is total). -/
theorem reload_iff_present_and_enabled {P O : Type} (st : Checkpoint P O)
    (bestFile : Option (Checkpoint P O)) (m : P) (o : O) :
    reloadStep false (some st) m o = (st.state_dict, st.optimizer)
    ∧ reloadStep true bestFile m o = (m, o)
    ∧ reloadStep false none m o = (m, o) :=
  ⟨rfl, rfl, rfl⟩

/-- Claim C5 (counterexample): invoking the program without the logdir option
is NOT rejected by argument parsing; argparse treats an option without
required=True as optional, so an empty command line parses successfully with
logdir defaulting to None. -/
theorem parse_accepts_missing_logdir :
    parse [] = some { batch_size := 32, epochs := 1000, logdir := none, noreload := false } :=
  rfl

/-- Claim C5 (amended): the interface accepts batch-size as an int default
32, epochs as an int default 1000, logdir as a string that is optional and
defaults to None, and noreload as a boolean flag default false; non-integer
values and unknown options are parse errors. -/
theorem cli_flags_types_defaults (s : String) :
    parse [] = some defaultArgs
    ∧ defaultArgs = { batch_size := 32, epochs := 1000, logdir := none, noreload := false }
    ∧ parse ["--logdir", s] = some { defaultArgs with logdir := some s }
    ∧ parse ["--noreload"] = some { defaultArgs with noreload := true }
    ∧ parse ["--batch-size", "64"] = some { defaultArgs with batch_size := 64 }
    ∧ parse ["--epochs", "5"] = some { defaultArgs with epochs := 5 }
    ∧ parse ["--epochs", "x"] = none
    ∧ parse ["--frobnicate"] = none :=
  ⟨rfl, rfl, rfl, rfl, rfl, rfl, rfl, rfl⟩

/-- Claim C6: with epochs = 0 the loop body never runs, the whole trace of
the run is empty of checkpoint writes, so neither checkpoint.tar nor
best.tar is ever produced; and the command line with epochs 0 parses to 0. -/
theorem epochs_zero_produces_no_checkpoints (noreload : Bool) (bestPrec : Option ℚ)
    (losses : Nat → ℚ) :
    (parse ["--logdir", "log", "--epochs", "0"]).map Args.epochs = some 0
    ∧ loopTraceI losses 0 = []
    ∧ saves (programTrace noreload bestPrec losses 0) = [] := by
  refine ⟨rfl, rfl, ?_⟩
  cases noreload <;> cases bestPrec <;> rfl

/-- Claim C7 (counterexample): not every missing output directory is created
at startup.  When the vae directory already exists but its samples
subdirectory does not, the creation block is skipped entirely: startup
returns with the filesystem unchanged and the samples directory still
missing when the loop starts. -/
theorem existing_vae_dir_skips_samples_dir :
    pexists ["log", "log/vae"] (vaeDir "log") = true
    ∧ pexists ["log", "log/vae"] (samplesDir "log") = false
    ∧ startupDirs "log" ["log", "log/vae"] = some ["log", "log/vae"] :=
  ⟨rfl, rfl, rfl⟩

/-- Claim C7 (amended): directory creation is decided by the vae directory
alone.  When it already exists the filesystem is left unchanged, so a
missing samples subdirectory stays missing.  When it is missing while logdir
exists and the samples path is free, both the vae directory and its samples
subdirectory are created before the loop.  When the vae directory and
logdir are both missing, the first mkdir raises an uncaught
FileNotFoundError: the process dies and no directory is created. -/
theorem startup_dirs_conditional (logdir : String) (fs : List String) :
    (pexists fs (vaeDir logdir) = true → startupDirs logdir fs = some fs)
    ∧ (pexists fs (vaeDir logdir) = false →
        pexists fs (samplesDir logdir) = false →
        pexists fs logdir = true →
        startupDirs logdir fs = some (samplesDir logdir :: vaeDir logdir :: fs)
        ∧ pexists (samplesDir logdir :: vaeDir logdir :: fs) (vaeDir logdir) = true
        ∧ pexists (samplesDir logdir :: vaeDir logdir :: fs) (samplesDir logdir) = true)
    ∧ (logdir ≠ "" → pexists fs (vaeDir logdir) = false →
        pexists fs logdir = false →
        startupDirs logdir fs = none) := by
  have hpv : parentDir (vaeDir logdir) = logdir :=
    parentDir_pathJoin logdir "vae" (by decide)
  have hps : parentDir (samplesDir logdir) = vaeDir logdir :=
    parentDir_pathJoin (vaeDir logdir) "samples" (by decide)
  have hne : (samplesDir logdir == vaeDir logdir) = false :=
    beq_eq_false_iff_ne.mpr (samplesDir_ne_vaeDir logdir)
  have hne2 : (vaeDir logdir == samplesDir logdir) = false :=
    beq_eq_false_iff_ne.mpr (Ne.symm (samplesDir_ne_vaeDir logdir))
  refine ⟨fun h1 => by simp [startupDirs, h1], ?_, ?_⟩
  · intro h1 h2 h3
    have hmk1 : mkdirFs fs (vaeDir logdir) = some (vaeDir logdir :: fs) := by
      simp [mkdirFs, h1, hpv, h3]
    have hmk2 : mkdirFs (vaeDir logdir :: fs) (samplesDir logdir) =
        some (samplesDir logdir :: vaeDir logdir :: fs) := by
      simp [mkdirFs, pexists_cons, hne, hps, h2]
    refine ⟨by simp [startupDirs, h1, hmk1, hmk2], ?_, ?_⟩
    · simp [pexists_cons, hne2]
    · simp [pexists_cons]
  · intro h0 h1 h3
    have h0b : (logdir == "") = false := beq_eq_false_iff_ne.mpr h0
    have hmk1 : mkdirFs fs (vaeDir logdir) = none := by
      simp [mkdirFs, h1, hpv, h3, h0b]
    simp [startupDirs, h1, hmk1]

/-- Witness for C7 amended at concrete filesystems: with only the log
directory present both output directories get created; with the vae
directory already present the filesystem is unchanged; with an empty
filesystem the startup dies without creating anything. -/
theorem startup_dirs_conditional_witness :
    startupDirs "log" ["log"] = some ["log/vae/samples", "log/vae", "log"]
    ∧ startupDirs "log" ["log", "log/vae"] = some ["log", "log/vae"]
    ∧ startupDirs "log" [] = none :=
  ⟨((startup_dirs_conditional "log" ["log"]).2.1 rfl rfl rfl).1,
   (startup_dirs_conditional "log" ["log", "log/vae"]).1 rfl,
   (startup_dirs_conditional "log" []).2.2 (by decide) rfl rfl⟩

/-- Claim C8: the test phase performs no gradient update: for every model
state, optimizer state, rng and batch sequence, testEpoch returns the model
parameters and the optimizer state unchanged, and its only numeric output is
the accumulated loss divided by the test dataset size. -/
theorem test_preserves_params_and_optimizer {P O D : Type}
    (lossOf : P → Nat → D → ℚ × Nat) (m : ModelState P) (opt : O) (rng : Nat)
    (buffer : List D) (nTest : ℚ) :
    (testEpoch lossOf m opt rng buffer nTest).1.params = m.params
    ∧ (testEpoch lossOf m opt rng buffer nTest).2.1 = opt
    ∧ (testEpoch lossOf m opt rng buffer nTest).2.2.2 =
        lossSum lossOf m.params rng buffer / nTest := by
  refine ⟨rfl, rfl, ?_⟩
  show (buffer.foldl
      (fun (a : Nat × ℚ) d =>
        let l := lossOf m.params a.1 d
        (l.2, a.2 + l.1))
      (rng, (0:ℚ))).2 / nTest = lossSum lossOf m.params rng buffer / nTest
  rw [testEpoch_fold_sum, zero_add]

/-- Claim C9: is_best evaluates to true on the first completed epoch
regardless of history, because cur_best starts as None and the reload step
never touches it: a process resumed from a best.tar holding precision p still
marks its first checkpoint write as best, even when the first test loss is
strictly worse than p, so best.tar is overwritten. -/
theorem first_epoch_always_best (bestPrec : ℚ) (losses : Nat → ℚ) (epochs : Int)
    (h : 1 ≤ epochs) (hworse : bestPrec < losses 1) :
    firstSave (programTrace false (some bestPrec) losses epochs) =
      some (1, losses 1, true) := by
  obtain ⟨k, hk⟩ : ∃ k, epochs.toNat = k + 1 := ⟨epochs.toNat - 1, by omega⟩
  unfold programTrace loopTraceI
  rw [hk, loopTrace_eq_flatMap, List.range_succ_eq_map]
  simp [firstSave, saves, List.flatMap_cons, List.filterMap_cons, List.filterMap_append]

/-- Witness for C9: resuming from a best.tar with precision 5 and observing a
worse first test loss of 7 still writes best.tar after epoch 1. -/
theorem first_epoch_always_best_witness :
    ((1 : Int) ≤ 1 ∧ (5 : ℚ) < 7)
    ∧ firstSave (programTrace false (some 5) (fun _ => 7) 1) = some (1, 7, true) :=
  ⟨⟨le_refl 1, by norm_num⟩,
   first_epoch_always_best 5 (fun _ => 7) 1 (le_refl 1) (by norm_num)⟩

/-- Claim C10: the script seeds the global rng with the constant 123,
discarding whatever ambient rng state the process started with, before the
model is constructed or any noise is drawn; hence two runs with the same
operations (library and dataset contents), the same best.tar content and the
same parsed arguments produce identical outputs, including the model
initialization, every test loss and every decoded sample image, whatever the
two ambient rng states were. -/
theorem identical_runs_from_fixed_seed {P O D I : Type} (ops : RunOps P O D I)
    (bestFile : Option (Checkpoint P O)) (args : Args) (entropy1 entropy2 : Nat) :
    fullRun ops bestFile args entropy1 = fullRun ops bestFile args entropy2 :=
  rfl
